import Mathlib

/-!
Verification development for the beacon-id identity service.

The definitions below are a shallow embedding of `src/identity/wallet_manager.ts`,
`src/identity/nwcli_client.ts` and `src/identity/worker.ts`:

* JSON-like values returned by wallet backends are modelled by the mutual
  inductive `JValue`/`JList`/`JFields` (objects keep field order, as JavaScript
  objects enumerate string keys in insertion order).
* JavaScript truthiness is modelled by `truthy` (NaN is not representable;
  numbers are modelled as integers, which covers every value this code builds).
* Remote calls (fetch, relay RPC, bolt11 decoding) are modelled as oracle
  parameters of type `Except JsError _`; a thrown exception is `.error`.
* Database rows and environment variables are explicit parameters.
-/

namespace BeaconId

/-! String primitives. The JavaScript string methods used by the source
(`toLowerCase`, `trim`, `startsWith`, `includes`, `split`, `slice`, regexes)
are modelled on the character list underlying `String`, so that every
definition evaluates by kernel reduction on concrete inputs. -/

/-- JavaScript `s.toLowerCase()` (ASCII range, which is all this code feeds it). -/
def lowerStr (s : String) : String := ⟨s.data.map Char.toLower⟩

/-- JavaScript `s.trim()`. -/
def trimStr (s : String) : String :=
  ⟨((s.data.dropWhile Char.isWhitespace).reverse.dropWhile Char.isWhitespace).reverse⟩

/-- JavaScript `s.startsWith(pat)`. -/
def startsWithStr (s pat : String) : Bool := pat.data.isPrefixOf s.data

/-- JavaScript `s.includes(pat)` on the underlying character list. -/
def listHasInfix (pat : List Char) : List Char → Bool
  | [] => pat.isPrefixOf []
  | c :: rest => pat.isPrefixOf (c :: rest) || listHasInfix pat rest

/-- JavaScript `s.includes(pat)`. -/
def includesStr (s pat : String) : Bool := listHasInfix pat.data s.data

/-- JavaScript `s.split(sep)` for a one-character separator. -/
def splitOnCharList (sep : Char) : List Char → List (List Char)
  | [] => [[]]
  | c :: rest =>
    if c = sep then [] :: splitOnCharList sep rest
    else
      match splitOnCharList sep rest with
      | h :: t => (c :: h) :: t
      | [] => [[c]]

/-- JavaScript `s.split(sep)` for a one-character separator, as strings. -/
def splitStr (s : String) (sep : Char) : List String :=
  (splitOnCharList sep s.data).map (fun l => ⟨l⟩)

/-- JavaScript `s.slice(0, n)` (clamping). -/
def takeStr (s : String) (n : Nat) : String := ⟨s.data.take n⟩

/-- JavaScript `s.slice(-n)` (last `n` characters; the whole string if shorter). -/
def takeRightStr (s : String) (n : Nat) : String := ⟨s.data.drop (s.data.length - n)⟩

/-- JavaScript `s.length`. -/
def lenStr (s : String) : Nat := s.data.length

/-- Decimal digit run to a natural number (`none` unless non-empty all-digits). -/
def decDigits (l : List Char) : Option Nat :=
  if l ≠ [] && l.all Char.isDigit then
    some (l.foldl (fun a c => a * 10 + (c.toNat - 48)) 0)
  else none

/-- `String.intercalate`, written to kernel-reduce. -/
def joinSep (sep : String) : List String → String
  | [] => ""
  | [x] => x
  | x :: xs => x ++ sep ++ joinSep sep xs

mutual
/-- A JSON-like runtime value (`unknown` in the TypeScript source). Objects are
ordered field lists, mirroring JavaScript's insertion-order enumeration used by
`Object.values`. -/
inductive JValue where
  | null
  | bool (b : Bool)
  | num (n : Int)
  | str (s : String)
  | arr (xs : JList)
  | obj (fs : JFields)

inductive JList where
  | nil
  | cons (hd : JValue) (tl : JList)

inductive JFields where
  | nil
  | cons (key : String) (val : JValue) (tl : JFields)
end

/-- JavaScript property read `record[key]` on an object: first field with that
key (JS objects have unique keys; a list model takes the first). -/
def JFields.lookup : JFields → String → Option JValue
  | .nil, _ => none
  | .cons k v t, key => if k = key then some v else t.lookup key

/-- JavaScript truthiness (`if (x)`), restricted to the values `JValue` models.
`NaN` is not representable because numbers are integers. -/
def truthy : JValue → Bool
  | .null => false
  | .bool b => b
  | .num n => n != 0
  | .str s => s != ""
  | .arr _ => true
  | .obj _ => true

/-- `typeof x === 'object'` (true for objects, arrays and `null`). -/
def isObjType : JValue → Bool
  | .null => true
  | .arr _ => true
  | .obj _ => true
  | _ => false

/-- Property access on an arbitrary value: only objects expose named fields
(array reads of these string keys yield `undefined`). -/
def getField : JValue → String → Option JValue
  | .obj fs, k => fs.lookup k
  | _, _ => none

/-- One character of `/^[0-9a-f]+$/i`. -/
def isHexDigitCI (c : Char) : Bool :=
  c.isDigit || ('a' ≤ c && c ≤ 'f') || ('A' ≤ c && c ≤ 'F')

/-- The test `value.length === 64 && /^[0-9a-f]+$/i.test(value)` from
`findPreimage` (the regex is case-insensitive). -/
def isHex64 (s : String) : Bool :=
  lenStr s = 64 && s.data.all isHexDigitCI

/-- A 64-character lowercase hexadecimal string — the spec's wording. -/
def isLowerHex64 (s : String) : Bool :=
  lenStr s = 64 && s.data.all (fun c => c.isDigit || ('a' ≤ c && c ≤ 'f'))

/-- The direct-key loop of `findPreimage`: for each recognized key in order,
if the value under it is a string, return it (any string, hex or not). -/
def preimageKeyHit (fs : JFields) : Option String :=
  match fs.lookup "preimage" with
  | some (.str s) => some s
  | _ =>
    match fs.lookup "paymentPreimage" with
    | some (.str s) => some s
    | _ =>
      match fs.lookup "preImage" with
      | some (.str s) => some s
      | _ => none

mutual
/-- `findPreimage` from `wallet_manager.ts` (inside
`interpretNwcliPaymentResponse`): falsy values yield `undefined`; a 64-char
case-insensitive hex string is returned as-is; on objects the three recognized
keys are checked for any string value first, then all field values are searched
depth-first (a returned empty string is skipped by the `if (found)` guard). -/
def findPreimage : JValue → Option String
  | .null => none
  | .bool _ => none
  | .num _ => none
  | .str s => if s = "" then none else if isHex64 s then some s else none
  | .arr xs => findPreimageList xs
  | .obj fs =>
    match preimageKeyHit fs with
    | some c => some c
    | none => findPreimageFields fs

def findPreimageList : JList → Option String
  | .nil => none
  | .cons v t =>
    match findPreimage v with
    | some s => if s = "" then findPreimageList t else some s
    | none => findPreimageList t

def findPreimageFields : JFields → Option String
  | .nil => none
  | .cons _ v t =>
    match findPreimage v with
    | some s => if s = "" then findPreimageFields t else some s
    | none => findPreimageFields t
end

/-- `findSuccessFlag` applied to a string value: the affirmative and negative
word sets; all other strings (and the falsy empty string) give `undefined`. -/
def stringFlag (s : String) : Option Bool :=
  if s = "" then none
  else
    let n := lowerStr s
    if n = "ok" || n = "success" || n = "paid" || n = "settled" || n = "completed" then some true
    else if n = "error" || n = "failed" || n = "rejected" then some false
    else none

mutual
/-- `findSuccessFlag` from `wallet_manager.ts`: falsy values yield `undefined`
(so a literal `false` is *never* returned from the boolean branch); booleans are
returned; strings go through the word sets; objects check a boolean `success`
field, then a string `status`, then a string `state` (each of those two returns
the string verdict unconditionally, even `undefined`), then recurse over all
field values taking the first defined verdict. -/
def findSuccessFlag : JValue → Option Bool
  | .null => none
  | .bool b => if b then some true else none
  | .num _ => none
  | .str s => stringFlag s
  | .arr xs => findSuccessFlagList xs
  | .obj fs =>
    match fs.lookup "success" with
    | some (.bool b) => some b
    | _ =>
      match fs.lookup "status" with
      | some (.str s) => stringFlag s
      | _ =>
        match fs.lookup "state" with
        | some (.str s) => stringFlag s
        | _ => findSuccessFlagFields fs

def findSuccessFlagList : JList → Option Bool
  | .nil => none
  | .cons v t =>
    match findSuccessFlag v with
    | some b => some b
    | none => findSuccessFlagList t

def findSuccessFlagFields : JFields → Option Bool
  | .nil => none
  | .cons _ v t =>
    match findSuccessFlag v with
    | some b => some b
    | none => findSuccessFlagFields t
end

/-- Truthiness of `x.payResult` for an arbitrary value `x`. -/
def payResultTruthy (v : JValue) : Bool :=
  match getField v "payResult" with
  | some pv => truthy pv
  | none => false

mutual
/-- `hasPayResult` from `wallet_manager.ts`: non-objects are `false`; an object
matches if its `payResult` field is truthy, or its `result` field is a truthy
object whose `payResult` is truthy, or any field value matches recursively. -/
def hasPayResult : JValue → Bool
  | .obj fs =>
    (match fs.lookup "payResult" with
     | some pv => truthy pv
     | none => false) ||
    (match fs.lookup "result" with
     | some r => truthy r && isObjType r && payResultTruthy r
     | none => false) ||
    hasPayResultFields fs
  | .arr xs => hasPayResultList xs
  | _ => false

def hasPayResultList : JList → Bool
  | .nil => false
  | .cons v t => hasPayResult v || hasPayResultList t

def hasPayResultFields : JFields → Bool
  | .nil => false
  | .cons _ v t => hasPayResult v || hasPayResultFields t
end

/-- A looked-up field value is structurally smaller than the field list
(used for termination of the `extractMsats` family, which recurses on
`record[key]` for keys checked in a fixed priority order). -/
theorem JFields.sizeOf_lookup : ∀ (fs : JFields) (k : String) (v : JValue),
    fs.lookup k = some v → sizeOf v < sizeOf fs
  | .nil, _, _ => by simp [JFields.lookup]
  | .cons key val tl, k, v => by
    simp only [JFields.lookup]
    split
    · intro h
      cases h
      simp only [JFields.cons.sizeOf_spec]
      omega
    · intro h
      have := JFields.sizeOf_lookup tl k v h
      simp only [JFields.cons.sizeOf_spec]
      omega

/-- JavaScript `Number(value)` on strings, restricted to the integer numerals
this system produces: the empty / all-blank string parses to `0`, an optional
sign followed by decimal digits parses exactly; anything else is `NaN`
(`none`). Fractional, hex and exponent literals are outside the model. -/
def parseIntStr (s : String) : Option Int :=
  let t := trimStr s
  if t = "" then some 0
  else if startsWithStr t "-" then (decDigits (t.data.drop 1)).map (fun n => -(n : Int))
  else if startsWithStr t "+" then (decDigits (t.data.drop 1)).map (fun n => (n : Int))
  else (decDigits t.data).map (fun n => (n : Int))

mutual
/-- `extractMsats` from `wallet_manager.ts`: numbers are returned, numeric
strings parsed, then on objects the direct keys `balanceMsats, balance_msats,
msats, amountMsats, balance` are tried in order (recursively), then the nesting
keys `data, context, result`, then the first element of a `balances` array
field that yields a value. Arrays reached directly yield `null`. -/
def extractMsats : JValue → Option Int
  | .null => none
  | .bool _ => none
  | .num n => some n
  | .str s => parseIntStr s
  | .arr _ => none
  | .obj fs =>
    match extractMsatsKeys fs ["balanceMsats", "balance_msats", "msats", "amountMsats", "balance"] with
    | some m => some m
    | none =>
      match extractMsatsKeys fs ["data", "context", "result"] with
      | some m => some m
      | none =>
        match hb : fs.lookup "balances" with
        | some (.arr xs) => extractMsatsArr xs
        | _ => none
  termination_by v => 8 * sizeOf v
  decreasing_by
  · simp only [JValue.obj.sizeOf_spec, List.length_cons, List.length_nil]; omega
  · simp only [JValue.obj.sizeOf_spec, List.length_cons, List.length_nil]; omega
  · have := JFields.sizeOf_lookup _ _ _ hb
    simp only [JValue.obj.sizeOf_spec, JValue.arr.sizeOf_spec] at *
    omega

/-- The `for (const key of keys) if (key in record) ...` loop of
`extractMsats`: first key whose value yields an amount wins. -/
def extractMsatsKeys (fs : JFields) : List String → Option Int
  | [] => none
  | k :: rest =>
    match hk : fs.lookup k with
    | some v =>
      match extractMsats v with
      | some m => some m
      | none => extractMsatsKeys fs rest
    | none => extractMsatsKeys fs rest
  termination_by keys => 8 * sizeOf fs + keys.length + 1
  decreasing_by
  · have := JFields.sizeOf_lookup _ _ _ hk
    omega
  · simp
  · simp

/-- The `balances` array scan of `extractMsats` (first element with a value). -/
def extractMsatsArr : JList → Option Int
  | .nil => none
  | .cons v t =>
    match extractMsats v with
    | some m => some m
    | none => extractMsatsArr t
  termination_by xs => 8 * sizeOf xs
  decreasing_by
  · simp only [JList.cons.sizeOf_spec]; omega
  · simp only [JList.cons.sizeOf_spec]; omega
end

mutual
/-- `extractPendingMsats` from `wallet_manager.ts`: same recursion discipline
as `extractMsats` with direct keys `pendingMsats, pending_msats,
pendingAmountMsats, pending`, the same nesting keys, and a `pending` array
scan at the end. -/
def extractPendingMsats : JValue → Option Int
  | .null => none
  | .bool _ => none
  | .num n => some n
  | .str s => parseIntStr s
  | .arr _ => none
  | .obj fs =>
    match extractPendingMsatsKeys fs ["pendingMsats", "pending_msats", "pendingAmountMsats", "pending"] with
    | some m => some m
    | none =>
      match extractPendingMsatsKeys fs ["data", "context", "result"] with
      | some m => some m
      | none =>
        match hb : fs.lookup "pending" with
        | some (.arr xs) => extractPendingMsatsArr xs
        | _ => none
  termination_by v => 8 * sizeOf v
  decreasing_by
  · simp only [JValue.obj.sizeOf_spec, List.length_cons, List.length_nil]; omega
  · simp only [JValue.obj.sizeOf_spec, List.length_cons, List.length_nil]; omega
  · have := JFields.sizeOf_lookup _ _ _ hb
    simp only [JValue.obj.sizeOf_spec, JValue.arr.sizeOf_spec] at *
    omega

/-- Key-priority loop of `extractPendingMsats`. -/
def extractPendingMsatsKeys (fs : JFields) : List String → Option Int
  | [] => none
  | k :: rest =>
    match hk : fs.lookup k with
    | some v =>
      match extractPendingMsats v with
      | some m => some m
      | none => extractPendingMsatsKeys fs rest
    | none => extractPendingMsatsKeys fs rest
  termination_by keys => 8 * sizeOf fs + keys.length + 1
  decreasing_by
  · have := JFields.sizeOf_lookup _ _ _ hk
    omega
  · simp
  · simp

/-- The `pending` array scan of `extractPendingMsats`. -/
def extractPendingMsatsArr : JList → Option Int
  | .nil => none
  | .cons v t =>
    match extractPendingMsats v with
    | some m => some m
    | none => extractPendingMsatsArr t
  termination_by xs => 8 * sizeOf xs
  decreasing_by
  · simp only [JList.cons.sizeOf_spec]; omega
  · simp only [JList.cons.sizeOf_spec]; omega
end

/-- One key of the `extractErrorMessage` direct-key loop: a string value with
non-blank trim is returned untrimmed; otherwise the loop moves on. -/
def strFieldNonblank (fs : JFields) (k : String) : Option String :=
  match fs.lookup k with
  | some (.str s) => if trimStr s = "" then none else some s
  | _ => none

/-- The direct-key loop of `extractErrorMessage` over
`error, message, reason, detail, description`. -/
def errKeyHit (fs : JFields) : Option String :=
  match strFieldNonblank fs "error" with
  | some m => some m
  | none =>
    match strFieldNonblank fs "message" with
    | some m => some m
    | none =>
      match strFieldNonblank fs "reason" with
      | some m => some m
      | none =>
        match strFieldNonblank fs "detail" with
        | some m => some m
        | none => strFieldNonblank fs "description"

/-- `record.status` is a string equal to `'error'` case-insensitively. -/
def statusIsErrorWord (fs : JFields) : Bool :=
  match fs.lookup "status" with
  | some (.str s) => lowerStr s = "error"
  | _ => false

mutual
/-- `extractErrorMessage` from `wallet_manager.ts`: falsy values give `null`;
a string gives its trim when non-blank; objects try the five message keys,
then a case-insensitive `status === 'error'` fallback message, then recurse
into object-typed field values only (the `typeof value === 'object'` guard). -/
def extractErrorMessage : JValue → Option String
  | .null => none
  | .bool _ => none
  | .num _ => none
  | .str s => if trimStr s = "" then none else some (trimStr s)
  | .arr xs => extractErrorMessageList xs
  | .obj fs =>
    match errKeyHit fs with
    | some m => some m
    | none =>
      if statusIsErrorWord fs then some "Remote wallet API reported an error status."
      else extractErrorMessageFields fs

def extractErrorMessageList : JList → Option String
  | .nil => none
  | .cons v t =>
    let nested := if isObjType v then extractErrorMessage v else none
    match nested with
    | some m => if m = "" then extractErrorMessageList t else some m
    | none => extractErrorMessageList t

def extractErrorMessageFields : JFields → Option String
  | .nil => none
  | .cons _ v t =>
    let nested := if isObjType v then extractErrorMessage v else none
    match nested with
    | some m => if m = "" then extractErrorMessageFields t else some m
    | none => extractErrorMessageFields t
end

/-- `looksLikeInvoice`: a string starting (case-insensitively) with `ln` and
longer than 10 characters; modelled as returning the matching string. -/
def looksLikeInvoice : JValue → Option String
  | .str s => if startsWithStr (lowerStr s) "ln" && decide (lenStr s > 10) then some s else none
  | _ => none

/-- The candidate-key loop of `extractInvoiceFromResponse` over
`invoice, pr, paymentRequest, bolt11`. -/
def invoiceKeyHit (fs : JFields) : Option String :=
  match (fs.lookup "invoice").bind looksLikeInvoice with
  | some s => some s
  | none =>
    match (fs.lookup "pr").bind looksLikeInvoice with
    | some s => some s
    | none =>
      match (fs.lookup "paymentRequest").bind looksLikeInvoice with
      | some s => some s
      | none => (fs.lookup "bolt11").bind looksLikeInvoice

mutual
/-- `extractInvoiceFromResponse` from `wallet_manager.ts`: the value itself if
it looks like an invoice; else, on objects, the four candidate keys, then all
field values — each checked directly first, then recursed into when it is a
truthy object. -/
def extractInvoiceFromResponse : JValue → Option String
  | .null => none
  | .bool _ => none
  | .num _ => none
  | .str s => looksLikeInvoice (.str s)
  | .arr xs => extractInvoiceFromList xs
  | .obj fs =>
    match invoiceKeyHit fs with
    | some s => some s
    | none => extractInvoiceFromFields fs

def extractInvoiceFromList : JList → Option String
  | .nil => none
  | .cons v t =>
    match looksLikeInvoice v with
    | some s => some s
    | none =>
      match v with
      | .arr _ | .obj _ =>
        (match extractInvoiceFromResponse v with
         | some s => if s = "" then extractInvoiceFromList t else some s
         | none => extractInvoiceFromList t)
      | _ => extractInvoiceFromList t

def extractInvoiceFromFields : JFields → Option String
  | .nil => none
  | .cons _ v t =>
    match looksLikeInvoice v with
    | some s => some s
    | none =>
      match v with
      | .arr _ | .obj _ =>
        (match extractInvoiceFromResponse v with
         | some s => if s = "" then extractInvoiceFromFields t else some s
         | none => extractInvoiceFromFields t)
      | _ => extractInvoiceFromFields t
end

mutual
/-- `String(x)` as used in template literals (`${x}`): arrays join their
elements with commas, plain objects print `[object Object]`. -/
def jsDisplay : JValue → String
  | .null => "null"
  | .bool b => if b then "true" else "false"
  | .num n => toString n
  | .str s => s
  | .arr xs => jsDisplayList xs
  | .obj _ => "[object Object]"

def jsDisplayList : JList → String
  | .nil => ""
  | .cons v .nil => jsDisplay v
  | .cons v t => jsDisplay v ++ "," ++ jsDisplayList t
end

/-- A thrown JavaScript value: either an `Error` instance (with the optional
`data` payload that the nwcli HTTP helper attaches to non-2xx responses) or an
arbitrary non-`Error` value. -/
inductive JsError where
  | err (message : String) (data : Option JValue)
  | val (v : JValue)

/-- `record.message` when it is a string. -/
def lookupMessage (fs : JFields) : Option String :=
  match fs.lookup "message" with
  | some (.str m) => some m
  | _ => none

/-- `extractMessageFromError` from `wallet_manager.ts`: falsy values give
`undefined`; strings are returned; an `Error` yields the message mined from its
`data` payload when non-empty, else its own `message`; other records try a
truthy `data` field then a string `message` field. -/
def extractMessageFromError : JsError → Option String
  | .err msg data =>
    match data with
    | some d =>
      (match extractErrorMessage d with
       | some m => if m = "" then some msg else some m
       | none => some msg)
    | none => some msg
  | .val v =>
    if truthy v = false then none
    else
      match v with
      | .str s => some s
      | .obj fs =>
        (match fs.lookup "data" with
         | some d =>
           if truthy d then
             (match extractErrorMessage d with
              | some m => if m = "" then lookupMessage fs else some m
              | none => lookupMessage fs)
           else lookupMessage fs
         | none => lookupMessage fs)
      | _ => none

/-- `error?.message` on a thrown value (as used by the nwc catch branches). -/
def errMessageProp : JsError → Option String
  | .err msg _ => some msg
  | .val (.obj fs) => lookupMessage fs
  | .val _ => none

/-- JavaScript `x || fallback` for an optional string `x` (empty string is
falsy and also falls back). -/
def orFallback (x : Option String) (fallback : String) : String :=
  match x with
  | some s => if s = "" then fallback else s
  | none => fallback

/-- `msatsToSats` from `wallet_manager.ts`: `null`/`undefined` pass through,
numbers are floor-divided by 1000 (`Math.floor(msats / 1000)`). -/
def msatsToSats : Option Int → Option Int
  | none => none
  | some n => some (Int.fdiv n 1000)

/-- `buildBalanceInsight` from `wallet_manager.ts`: human-readable summary of
available/balance/pending/request amounts in display units, or `null` when
nothing is known. -/
def buildBalanceInsight (balanceMsats pendingMsats requestMsats : Option Int) : Option String :=
  let availableMsats : Option Int :=
    match balanceMsats with
    | some b => some (max (b - pendingMsats.getD 0) 0)
    | none => none
  let p1 : List String :=
    match msatsToSats availableMsats with
    | some a => [s!"available {a} sats"]
    | none => []
  let p2 : List String :=
    match msatsToSats balanceMsats with
    | some b => [s!"balance {b} sats"]
    | none => []
  let p3 : List String :=
    match msatsToSats pendingMsats with
    | some p => [s!"pending {p} sats"]
    | none => []
  let p4 : List String :=
    match msatsToSats requestMsats with
    | some r => [s!"request {r} sats"]
    | none => []
  let parts := p1 ++ p2 ++ p3 ++ p4
  match parts with
  | [] => none
  | _ =>
    let joined := joinSep ", " parts
    some ("(" ++ joined ++ ")")

/-- Result of `interpretNwcliPaymentResponse`. -/
structure InterpretedPayment where
  success : Bool
  preimage : Option String
deriving Repr, DecidableEq

/-- `interpretNwcliPaymentResponse` from `wallet_manager.ts`: the success flag
search, then the `payResult`-presence fallback, then the non-negative
balance-like fallback, then `Boolean(preimage)`. -/
def interpretNwcliPaymentResponse (response : JValue) : InterpretedPayment :=
  let preimage := findPreimage response
  let s0 := findSuccessFlag response
  let s1 := if s0.isNone && hasPayResult response then some true else s0
  let s2 :=
    if s1.isNone then
      match extractMsats response with
      | some m => if 0 ≤ m then some true else s1
      | none => s1
    else s1
  { success := s2.getD (match preimage with | some p => p ≠ "" | none => false),
    preimage := preimage }

/-! ### Wallet resolver (`loadWallet`) -/

/-- Backend kind: protocol wallet (`'nwc'`) or HTTP wallet (`'api'`). -/
inductive WalletType where
  | nwc
  | api
deriving DecidableEq, Repr

/-- A `user_wallets` row as read by `loadWallet`. `none` is SQL NULL; a present
empty string is falsy for the `row.x ? String(row.x) : null` conversions. -/
structure WalletRow where
  wallet_type : Option String
  encrypted_nwc_string : Option String
  ln_address : Option String
  api_identifier : Option String
  api_subaccount_id : Option String
  api_label : Option String
deriving DecidableEq, Repr

/-- Truthiness of an optional string (`undefined`/`null` and `''` are falsy). -/
def optTruthy : Option String → Bool
  | some s => s ≠ ""
  | none => false

/-- Truthiness of an optional number (`undefined`/`null` and `0` are falsy). -/
def numTruthy : Option Int → Bool
  | some n => n ≠ 0
  | none => false

/-- `WalletDetails` from `wallet_manager.ts`. -/
structure WalletDetails where
  type : WalletType
  npub : String
  nwcUri : Option String := none
  lnAddress : Option String := none
  apiIdentifier : Option String := none
  apiSubAccountId : Option String := none
  apiLabel : Option String := none
deriving DecidableEq, Repr

/-- `loadWallet` from `wallet_manager.ts`. The database row and the
`SHARED_NWC_STRING` environment value are parameters; `decryptFn` models the
`decrypt` helper. No row: fall back to the shared protocol-wallet credential
when its trim is non-empty, else no wallet. With a row: branch on the
lower-cased `wallet_type`, requiring a non-empty encrypted credential for
`'nwc'` and a non-empty identifier for `'api'`. -/
def loadWallet (npub : String) (row : Option WalletRow) (sharedNwc : String)
    (decryptFn : String → String) : Option WalletDetails :=
  match row with
  | none =>
    let shared := trimStr sharedNwc
    if shared ≠ "" then
      some { type := .nwc, npub := npub, nwcUri := some shared, lnAddress := none }
    else none
  | some r =>
    let walletType := lowerStr (r.wallet_type.getD "")
    if walletType = "nwc" then
      let encrypted := if optTruthy r.encrypted_nwc_string then r.encrypted_nwc_string.getD "" else ""
      if encrypted = "" then none
      else
        some { type := .nwc, npub := npub, nwcUri := some (decryptFn encrypted),
               lnAddress := if optTruthy r.ln_address then r.ln_address else none }
    else if walletType = "api" then
      if optTruthy r.api_identifier = false then none
      else
        some { type := .api, npub := npub,
               lnAddress := if optTruthy r.ln_address then r.ln_address else none,
               apiIdentifier := r.api_identifier,
               apiSubAccountId := if optTruthy r.api_subaccount_id then r.api_subaccount_id else none,
               apiLabel := if optTruthy r.api_label then r.api_label else none }
    else none

/-! ### Payment dispatcher (`makePayment` and helpers) -/

/-- A `PendingPayment` record from the pending store. -/
structure PendingPayment where
  npub : String
  type : String
  lnAddress : Option String := none
  amount : Option Int := none
  lnInvoice : Option String := none
deriving DecidableEq, Repr

/-- `PaymentResult` from `wallet_manager.ts`. -/
structure PaymentResult where
  success : Bool
  receipt : Option String := none
  error : Option String := none
deriving DecidableEq, Repr

/-- Remote calls that `makePayment` can issue, for call-trace observations. -/
inductive WCall where
  | lnurlFetchParams
  | lnurlFetchInvoice
  | nwcPayInvoice
  | apiRefreshLedger
  | apiFetchBalance
  | apiPayLnAddress
  | apiPayInvoice
deriving DecidableEq, Repr

/-- Oracle outcomes for the protocol-wallet (nwc) payment path. `decodeAmount`
is the bolt11 amount-section value of the fetched invoice, as the decimal
string the decoder library yields (`none` = no amount section). -/
structure NwcOracles where
  parse : Except JsError Unit
  lnurlParams : Except JsError JValue
  lnurlInvoice : Except JsError JValue
  decodeAmount : Except JsError (Option String)
  payInvoice : Except JsError JValue

/-- Oracle outcomes for the HTTP-wallet (api) payment path.
`decodeInvoiceAmount` is the result of `decodeInvoiceMsats` (which catches
internally and returns `null` on any decode failure). -/
structure ApiOracles where
  refreshLedger : Except JsError Unit
  fetchBalance : Except JsError JValue
  payLnAddress : Except JsError JValue
  payInvoice : Except JsError JValue
  decodeInvoiceAmount : Option Int

/-- `String(x)` for the decoded amount-section value (`undefined` prints as
`"undefined"`; the decoder yields the amount as a decimal string). -/
def strOfOptAmt : Option String → String
  | none => "undefined"
  | some s => s

/-- Strict equality `x === 'word'` for an optional field value. -/
def fieldIsStr (v : Option JValue) (w : String) : Bool :=
  match v with
  | some (.str t) => t = w
  | _ => false

/-- `params.reason || 'Invalid response'` rendered for a template literal. -/
def reasonText (params : JValue) : String :=
  match getField params "reason" with
  | some r => if truthy r then jsDisplay r else "Invalid response"
  | none => "Invalid response"

/-- `getInvoiceFromLnAddress` from `wallet_manager.ts`: split the address,
fetch LNURL-pay parameters, reject error/tag mismatch, fetch the invoice from
the callback with the amount in millisats, reject error or missing `pr`, then
decode the invoice and require its embedded amount string to equal
`String(amountSats * 1000)` — a mismatch is a hard failure. Returns the `pr`
value and the list of network calls made. -/
def getInvoiceFromLnAddress (lnAddress : String) (amountSats : Int) (o : NwcOracles) :
    Except JsError JValue × List WCall :=
  let parts := splitStr lnAddress '@'
  let name := parts.getD 0 ""
  let domain := parts.getD 1 ""
  if name = "" ∨ domain = "" then
    (.error (.err "Invalid Lightning Address format." none), [])
  else
    match o.lnurlParams with
    | .error e => (.error e, [.lnurlFetchParams])
    | .ok params =>
      if fieldIsStr (getField params "status") "ERROR" || !fieldIsStr (getField params "tag") "payRequest" then
        let r := reasonText params
        (.error (.err (s!"LNURL-pay failed: {r}") none), [.lnurlFetchParams])
      else
        let amountMsats := amountSats * 1000
        match o.lnurlInvoice with
        | .error e => (.error e, [.lnurlFetchParams, .lnurlFetchInvoice])
        | .ok invoiceData =>
          let pr := getField invoiceData "pr"
          if fieldIsStr (getField invoiceData "status") "ERROR" ||
             !(match pr with | some p => truthy p | none => false) then
            let r := reasonText invoiceData
            (.error (.err (s!"Failed to get invoice: {r}") none), [.lnurlFetchParams, .lnurlFetchInvoice])
          else
            let invoice := pr.getD .null
            match o.decodeAmount with
            | .error e => (.error e, [.lnurlFetchParams, .lnurlFetchInvoice])
            | .ok invoiceAmountMsats =>
              let got := strOfOptAmt invoiceAmountMsats
              let want := toString amountMsats
              if got ≠ want then
                (.error (.err (s!"Invoice amount mismatch. Expected {want}, got {got}") none),
                 [.lnurlFetchParams, .lnurlFetchInvoice])
              else
                (.ok invoice, [.lnurlFetchParams, .lnurlFetchInvoice])

/-- `client.payInvoice` followed by the `result?.preimage` check, shared by
both branches of the nwc try block. -/
def nwcPayStep (o : NwcOracles) (cs : List WCall) :
    Except JsError PaymentResult × List WCall :=
  match o.payInvoice with
  | .error e => (.error e, cs ++ [.nwcPayInvoice])
  | .ok result =>
    match getField result "preimage" with
    | some p =>
      if truthy p then (.ok { success := true, receipt := some (jsDisplay p) }, cs ++ [.nwcPayInvoice])
      else (.ok { success := false, error := some "Payment was rejected or failed." }, cs ++ [.nwcPayInvoice])
    | none => (.ok { success := false, error := some "Payment was rejected or failed." }, cs ++ [.nwcPayInvoice])

/-- The try block of the nwc branch of `makePayment`: parse the credential,
obtain the invoice (via LNURL for address payments), pay it. `.error` is a
raised exception to be handled by the catch. -/
def nwcTryBody (details : PendingPayment) (o : NwcOracles) :
    Except JsError PaymentResult × List WCall :=
  match o.parse with
  | .error e => (.error e, [])
  | .ok _ =>
    if details.type = "ln_address" then
      if ¬(optTruthy details.lnAddress ∧ numTruthy details.amount) then
        (.ok { success := false, error := some "Missing lnAddress or amount" }, [])
      else
        match getInvoiceFromLnAddress (details.lnAddress.getD "") (details.amount.getD 0) o with
        | (.error e, cs) => (.error e, cs)
        | (.ok _, cs) => nwcPayStep o cs
    else
      nwcPayStep o []

/-- The snapshot taken before an api payment: `extractMsats` and
`extractPendingMsats` of the balance response, or `null` if the fetch threw. -/
def balanceSnapshotOf : Except JsError JValue → Option (Option Int × Option Int)
  | .ok resp => some (extractMsats resp, extractPendingMsats resp)
  | .error _ => none

/-- The balance component of the pre-payment snapshot (`?.balanceMsats ?? null`). -/
def snapBalance : Option (Option Int × Option Int) → Option Int
  | some (b, _) => b
  | none => none

/-- The pending component of the pre-payment snapshot (`?.pendingMsats ?? null`). -/
def snapPending : Option (Option Int × Option Int) → Option Int
  | some (_, p) => p
  | none => none

/-- `appendBalanceContext` from `makePayment`: suffix the failure message with
the balance insight when one is available. -/
def appendBalanceContext (message : String) (requestMsats : Option Int)
    (snapshot : Option (Option Int × Option Int)) : String :=
  match buildBalanceInsight (snapBalance snapshot) (snapPending snapshot) requestMsats with
  | some insight => message ++ " " ++ insight
  | none => message

/-- The try block of the api branch of `makePayment`: pay the address or the
invoice and normalize the response; a non-success response is enriched with
the balance insight. `.error` is a raised exception for the catch branch. -/
def apiTryBody (details : PendingPayment) (o : ApiOracles)
    (snapshot : Option (Option Int × Option Int)) (lnAddrReq lnInvReq : Option Int) :
    Except JsError PaymentResult × List WCall :=
  if details.type = "ln_address" then
    if ¬(optTruthy details.lnAddress ∧ numTruthy details.amount) then
      (.ok { success := false, error := some "Missing lnAddress or amount" }, [])
    else
      match o.payLnAddress with
      | .error e => (.error e, [.apiPayLnAddress])
      | .ok response =>
        let interpreted := interpretNwcliPaymentResponse response
        if interpreted.success then
          (.ok { success := true, receipt := interpreted.preimage }, [.apiPayLnAddress])
        else
          (.ok { success := false,
                 error := some (appendBalanceContext
                   (orFallback (extractErrorMessage response) "Payment was rejected or failed.")
                   lnAddrReq snapshot) }, [.apiPayLnAddress])
  else
    if optTruthy details.lnInvoice = false then
      (.ok { success := false, error := some "Missing invoice for payment." }, [])
    else
      match o.payInvoice with
      | .error e => (.error e, [.apiPayInvoice])
      | .ok response =>
        let interpreted := interpretNwcliPaymentResponse response
        if interpreted.success then
          (.ok { success := true, receipt := interpreted.preimage }, [.apiPayInvoice])
        else
          (.ok { success := false,
                 error := some (appendBalanceContext
                   (orFallback (extractErrorMessage response) "Payment was rejected or failed.")
                   lnInvReq snapshot) }, [.apiPayInvoice])

/-- Result of a `makePayment` run: the returned `PaymentResult`, the remote
calls made, and whether a catch branch produced the result. -/
structure PayRun where
  result : PaymentResult
  calls : List WCall
  caught : Bool
deriving Repr

/-- `makePayment` from `wallet_manager.ts` as a total function over the
database row, environment and remote-call oracles. The nwc branch wraps
`nwcTryBody` in its catch (`error?.message || 'An unknown error occurred.'`);
the api branch first fires the best-effort ledger refresh and balance
snapshot (exceptions swallowed), then wraps `apiTryBody` in its catch
(`extractMessageFromError` plus balance-context enrichment). -/
def makePayment (details : PendingPayment) (row : Option WalletRow) (sharedNwc : String)
    (decryptFn : String → String) (nwcO : NwcOracles) (apiO : ApiOracles) : PayRun :=
  match loadWallet details.npub row sharedNwc decryptFn with
  | none =>
    { result := { success := false, error := some s!"No wallet found for user {details.npub}." },
      calls := [], caught := false }
  | some wallet =>
    match wallet.type with
    | .nwc =>
      if optTruthy wallet.nwcUri = false then
        { result := { success := false, error := some s!"Wallet for {details.npub} is missing NWC credentials." },
          calls := [], caught := false }
      else
        match nwcTryBody details nwcO with
        | (.ok r, cs) => { result := r, calls := cs, caught := false }
        | (.error e, cs) =>
          { result := { success := false,
                        error := some (orFallback (errMessageProp e) "An unknown error occurred.") },
            calls := cs, caught := true }
    | .api =>
      if optTruthy wallet.apiIdentifier = false then
        { result := { success := false, error := some s!"Wallet for {details.npub} is missing API identifier." },
          calls := [], caught := false }
      else
        let snapshot := balanceSnapshotOf apiO.fetchBalance
        let preCalls : List WCall :=
          match apiO.refreshLedger with
          | .ok _ => [.apiRefreshLedger, .apiFetchBalance]
          | .error _ => [.apiRefreshLedger, .apiFetchBalance]
        let lnAddrReq : Option Int :=
          if details.type = "ln_address" ∧ numTruthy details.amount then
            some (details.amount.getD 0 * 1000)
          else none
        let lnInvReq : Option Int :=
          if details.type = "ln_invoice" ∧ optTruthy details.lnInvoice then
            apiO.decodeInvoiceAmount
          else none
        match apiTryBody details apiO snapshot lnAddrReq lnInvReq with
        | (.ok r, cs) => { result := r, calls := preCalls ++ cs, caught := false }
        | (.error e, cs) =>
          let requestMsats := if details.type = "ln_address" then lnAddrReq else lnInvReq
          { result := { success := false,
                        error := some (appendBalanceContext
                          (orFallback (extractMessageFromError e) "An unknown error occurred.")
                          requestMsats snapshot) },
            calls := preCalls ++ cs, caught := true }

/-! ### The other wallet operations (`getBalance`, `createInvoice`, `getLNAddress`) -/

/-- `BalanceResult` from `wallet_manager.ts`. -/
structure BalanceResult where
  success : Bool
  balance : Option Int := none
  error : Option String := none
deriving DecidableEq, Repr

/-- Oracles for `getBalance`: credential parsing, the nwc `getBalance` RPC
(`result.balance`, millisats) and the api balance fetch. -/
structure BalanceOracles where
  parse : Except JsError Unit
  nwcGetBalance : Except JsError Int
  apiFetchBalance : Except JsError JValue

/-- `getBalance` from `wallet_manager.ts`. -/
def getBalance (npub : String) (row : Option WalletRow) (sharedNwc : String)
    (decryptFn : String → String) (o : BalanceOracles) : BalanceResult :=
  match loadWallet npub row sharedNwc decryptFn with
  | none => { success := false, error := some s!"No wallet found for user {npub}." }
  | some wallet =>
    match wallet.type with
    | .nwc =>
      if optTruthy wallet.nwcUri = false then
        { success := false, error := some s!"Wallet for {npub} is missing NWC credentials." }
      else
        match o.parse with
        | .error e =>
          { success := false, error := some (orFallback (errMessageProp e) "An unknown error occurred.") }
        | .ok _ =>
          match o.nwcGetBalance with
          | .ok b => { success := true, balance := some (Int.fdiv b 1000) }
          | .error e =>
            { success := false, error := some (orFallback (errMessageProp e) "An unknown error occurred.") }
    | .api =>
      if optTruthy wallet.apiIdentifier = false then
        { success := false, error := some s!"Wallet for {npub} is missing API identifier." }
      else
        match o.apiFetchBalance with
        | .ok result =>
          (match extractMsats result with
           | none => { success := false, error := some "Failed to read balance from wallet response." }
           | some msats => { success := true, balance := some (Int.fdiv msats 1000) })
        | .error e =>
          { success := false, error := some (orFallback (errMessageProp e) "An unknown error occurred.") }

/-- `InvoiceResult` from `wallet_manager.ts`. -/
structure InvoiceResult where
  success : Bool
  invoice : Option String := none
  error : Option String := none
deriving DecidableEq, Repr

/-- Oracles for `createInvoice`: credential parsing, the nwc `makeInvoice`
RPC (`result.invoice`, keyed by the requested amount in millisats) and the api
invoice endpoint (keyed by the requested amount in sats). -/
structure InvoiceOracles where
  parse : Except JsError Unit
  nwcMakeInvoice : Int → Except JsError (Option String)
  apiCreateInvoice : Int → Except JsError JValue

/-- `createInvoice` from `wallet_manager.ts`. -/
def createInvoice (npub : String) (amountSats : Int) (row : Option WalletRow) (sharedNwc : String)
    (decryptFn : String → String) (o : InvoiceOracles) : InvoiceResult :=
  match loadWallet npub row sharedNwc decryptFn with
  | none => { success := false, error := some s!"No wallet found for user {npub}." }
  | some wallet =>
    match wallet.type with
    | .nwc =>
      if optTruthy wallet.nwcUri = false then
        { success := false, error := some s!"Wallet for {npub} is missing NWC credentials." }
      else
        match o.parse with
        | .error e =>
          { success := false, error := some (orFallback (errMessageProp e) "An unknown error occurred.") }
        | .ok _ =>
          match o.nwcMakeInvoice (amountSats * 1000) with
          | .ok inv =>
            if optTruthy inv then { success := true, invoice := inv }
            else { success := false, error := some "Failed to create invoice." }
          | .error e =>
            { success := false, error := some (orFallback (errMessageProp e) "An unknown error occurred.") }
    | .api =>
      if optTruthy wallet.apiIdentifier = false then
        { success := false, error := some s!"Wallet for {npub} is missing API identifier." }
      else
        match o.apiCreateInvoice amountSats with
        | .ok result =>
          (match extractInvoiceFromResponse result with
           | some invoice => { success := true, invoice := some invoice }
           | none =>
             { success := false,
               error := some (orFallback (extractErrorMessage result) "Failed to create invoice.") })
        | .error e =>
          { success := false,
            error := some (orFallback (extractMessageFromError e) "An unknown error occurred.") }

/-- `LNAddressResult` from `wallet_manager.ts`. -/
structure LNAddressResult where
  success : Bool
  lnAddress : Option String := none
  error : Option String := none
deriving DecidableEq, Repr

/-- Oracles for `getLNAddress`: the `lud16` query parameter of the nwc URI
(the `new URL(...)` parse; `.error` models a parse throw) and the fallback
database re-query of `ln_address`. -/
structure LnAddrOracles where
  urlLud16 : Except JsError (Option String)
  dbLnAddress : Option String

/-- `getLNAddress` from `wallet_manager.ts`. -/
def getLNAddress (npub : String) (row : Option WalletRow) (sharedNwc : String)
    (decryptFn : String → String) (o : LnAddrOracles) : LNAddressResult :=
  match loadWallet npub row sharedNwc decryptFn with
  | none => { success := false, error := some s!"No wallet found for user {npub}." }
  | some wallet =>
    match wallet.type with
    | .nwc =>
      if optTruthy wallet.nwcUri = false then
        { success := false, error := some s!"Wallet for {npub} is missing NWC credentials." }
      else
        let fromUri : Option String :=
          match o.urlLud16 with
          | .ok (some l) => if l ≠ "" then some l else none
          | _ => none
        match fromUri with
        | some l => { success := true, lnAddress := some l }
        | none =>
          if optTruthy wallet.lnAddress then
            { success := true, lnAddress := wallet.lnAddress }
          else if optTruthy o.dbLnAddress then
            { success := true, lnAddress := o.dbLnAddress }
          else
            { success := false, error := some "Lightning Address not found." }
    | .api =>
      if optTruthy wallet.lnAddress then
        { success := true, lnAddress := wallet.lnAddress }
      else
        { success := false, error := some "Lightning Address not available for generated wallets." }

/-! ### Onboarding state machine (`worker.ts`) -/

/-- The in-memory `OnboardingStep` variants from `worker.ts`. -/
inductive OnboardingStep where
  | awaiting_choice (npub : String)
  | awaiting_nwc (npub : String)
  | awaiting_ln_address (npub : String)
deriving DecidableEq, Repr

/-- A `user_wallets` upsert as performed by `saveNwcWallet` / `saveApiWallet`
(field values exactly as in the SQL statements). -/
structure WalletUpsert where
  user_npub : String
  wallet_type : String
  encrypted_nwc_string : Option String := none
  ln_address : Option String := none
  api_identifier : Option String := none
  api_subaccount_id : Option String := none
  api_label : Option String := none
deriving DecidableEq, Repr

/-- A database write issued by the onboarding handler. -/
inductive DbWrite where
  | upsertWallet (w : WalletUpsert)
  | updateLnAddress (npub : String) (lnAddress : Option String)
deriving DecidableEq, Repr

/-- `saveNwcWallet` from `worker.ts`: upsert with `wallet_type = 'nwc'`, the
encrypted credential, and NULL api columns. -/
def saveNwcWallet (encryptFn : String → String) (npub nwcString : String)
    (lnAddress : Option String) : DbWrite :=
  .upsertWallet { user_npub := npub, wallet_type := "nwc",
                  encrypted_nwc_string := some (encryptFn nwcString),
                  ln_address := lnAddress }

/-- `saveApiWallet` from `worker.ts`: upsert with `wallet_type = 'api'`, NULL
credential and address, and the api identifier/sub-account/label columns. -/
def saveApiWallet (npub identifier subAccountId label : String) : DbWrite :=
  .upsertWallet { user_npub := npub, wallet_type := "api",
                  api_identifier := some identifier,
                  api_subaccount_id := some subAccountId,
                  api_label := some label }

/-- `looksLikeNwcString` from `worker.ts` (`/^nostr\+walletconnect:\/\//i`). -/
def looksLikeNwcString (input : String) : Bool :=
  startsWithStr (lowerStr (trimStr input)) "nostr+walletconnect://"

/-- The two onboarding wallet choices. -/
inductive WalletChoice where
  | one
  | two
deriving DecidableEq, Repr

/-- `parseWalletChoice` from `worker.ts`. -/
def parseWalletChoice (input : String) : Option WalletChoice :=
  let normalized := lowerStr (trimStr input)
  if normalized = "" then none
  else if normalized = "1" || startsWithStr normalized "1)" ||
          includesStr normalized "wallet connect" || includesStr normalized "nwc" then
    some .one
  else if normalized = "2" || startsWithStr normalized "2)" ||
          includesStr normalized "generate" || includesStr normalized "new wallet" then
    some .two
  else none

/-- `generateSubAccountLabel` from `worker.ts`: strip non-alphanumerics from
the gateway user, take the last six characters (falling back to the npub's
last six), lower-case, and build `beacon-<gatewayType>-<suffix>` capped at 32
characters. -/
def generateSubAccountLabel (gatewayType gatewayUser npub : String) : String :=
  let sanitizedUser := lowerStr ⟨gatewayUser.data.filter Char.isAlphanum⟩
  let fromUser := takeRightStr sanitizedUser 6
  let suffix := lowerStr (if fromUser = "" then takeRightStr npub 6 else fromUser)
  let label := s!"beacon-{gatewayType}-{suffix}"
  if lenStr label > 32 then takeStr label 32 else label

/-- The sub-account object inside a `createSubAccount` response. -/
structure SubAccountInner where
  id : String
  label : String
deriving DecidableEq, Repr

/-- The nwcli `createSubAccount` response shape used by the worker. -/
structure SubAccountResp where
  id : String
  identifier : String
  subAccount : SubAccountInner
deriving DecidableEq, Repr

/-- Oracles for the onboarding handler: `createNewUser` (returns `null` on
failure), `createSubAccount` keyed by the generated label, the live
`validateNwcString` probe, and the `encrypt` helper. -/
structure OnboardOracles where
  createUser : Option String
  createSubAccount : String → Except JsError SubAccountResp
  validateNwc : String → Bool
  encryptFn : String → String

/-- Observable outcome of one `handleOnboarding` run for a user: the user's
in-memory onboarding entry afterwards (`none` = deleted/absent), the wallet
table writes, the outbound message bodies in order, and whether
`notifyBrainOfNewUser` fired (inside `finishOnboarding`). -/
structure OnboardOutcome where
  state : Option OnboardingStep
  writes : List DbWrite
  outBodies : List String
  notifiedBrain : Bool
deriving DecidableEq, Repr

/-- The fixed two-option onboarding prompt from `promptWalletChoice`. -/
def walletChoicePrompt : String :=
  "Welcome to Beacon!\n\nI am the Beacon ID. I help you manage your wallet and approvals. The Beacon Brain will answer your questions and help you work with your money and get access to any information you need.\n\nWould you like to:\n(1) BYO Wallet w. Nostr Wallet Connect\n(2) Generate a new wallet?"

/-- The completion message sent by `finishOnboarding`. -/
def completionMessage : String :=
  "We've successfully created you a Lightning wallet and onboarded you to Bitcoin.\n\nThe Beacon Brain will be in touch from another number. You can use the Brain to get access to any information and to ask for payments, invoices, etc from your wallet.\n\nNo money can be spent by the Brain unless you approve it here first.\n\nWe hope you have a great day!"

/-- `handleGenerateWallet` from `worker.ts`: create the backend sub-account
under the deterministic label; on success persist the api wallet and finish
onboarding (which deletes the in-memory state and notifies upstream); on
failure apologize, reset to `awaiting_choice` and re-prompt. -/
def handleGenerateWallet (gatewayType gatewayUser npub : String) (o : OnboardOracles) :
    OnboardOutcome :=
  let label := generateSubAccountLabel gatewayType gatewayUser npub
  match o.createSubAccount label with
  | .ok subAccount =>
    { state := none,
      writes := [saveApiWallet npub subAccount.identifier subAccount.id subAccount.subAccount.label],
      outBodies := [completionMessage],
      notifiedBrain := true }
  | .error _ =>
    { state := some (.awaiting_choice npub),
      writes := [],
      outBodies := ["Sorry, I couldn't create a wallet right now. Let's try that again.", walletChoicePrompt],
      notifiedBrain := false }

/-- `handleNwcProvided` from `worker.ts`: validate the credential live; on
success persist the nwc wallet and advance to `awaiting_ln_address`; on
failure re-prompt leaving the state untouched. -/
def handleNwcProvided (cur : Option OnboardingStep) (npub nwc : String) (o : OnboardOracles) :
    OnboardOutcome :=
  if o.validateNwc nwc then
    { state := some (.awaiting_ln_address npub),
      writes := [saveNwcWallet o.encryptFn npub nwc none],
      outBodies := ["That all worked, please can you tell me your lightning address for this wallet? Or if it's not available just say No"],
      notifiedBrain := false }
  else
    { state := cur,
      writes := [],
      outBodies := ["Hey that didn't work, please ensure it's a valid wallet connect string or reply 2 to generate a new wallet."],
      notifiedBrain := false }

/-- `handleOnboarding` from `worker.ts` for one inbound message, as a function
of the user's current in-memory state, the trimmed message, and the external
oracles. The `none` state is first contact (`createNewUser` then the choice
prompt). -/
def handleOnboarding (gatewayType gatewayUser : String) (state : Option OnboardingStep)
    (messageText : String) (o : OnboardOracles) : OnboardOutcome :=
  let normalizedInput := trimStr messageText
  match state with
  | none =>
    (match o.createUser with
     | none =>
       { state := none,
         writes := [],
         outBodies := ["Sorry, there was an error creating your account. Please try again later."],
         notifiedBrain := false }
     | some npub =>
       { state := some (.awaiting_choice npub),
         writes := [],
         outBodies := [walletChoicePrompt],
         notifiedBrain := false })
  | some (.awaiting_choice npub) =>
    if looksLikeNwcString normalizedInput then
      handleNwcProvided (some (.awaiting_choice npub)) npub normalizedInput o
    else
      (match parseWalletChoice normalizedInput with
       | some .one =>
         { state := some (.awaiting_nwc npub),
           writes := [],
           outBodies := ["Alright, let's set up your Bitcoin wallet. Please respond with a nostr wallet connect string and I'll do the rest."],
           notifiedBrain := false }
       | some .two => handleGenerateWallet gatewayType gatewayUser npub o
       | none =>
         { state := some (.awaiting_choice npub),
           writes := [],
           outBodies := [walletChoicePrompt],
           notifiedBrain := false })
  | some (.awaiting_nwc npub) =>
    if looksLikeNwcString normalizedInput then
      handleNwcProvided (some (.awaiting_nwc npub)) npub normalizedInput o
    else
      (match parseWalletChoice normalizedInput with
       | some .two => handleGenerateWallet gatewayType gatewayUser npub o
       | _ =>
         { state := some (.awaiting_nwc npub),
           writes := [],
           outBodies := ["I'm still waiting on a valid wallet connect string. You can also reply 2 to generate a new wallet."],
           notifiedBrain := false })
  | some (.awaiting_ln_address npub) =>
    let lnAddress := if lowerStr normalizedInput = "no" then none else some normalizedInput
    { state := none,
      writes := [DbWrite.updateLnAddress npub lnAddress],
      outBodies := [completionMessage],
      notifiedBrain := true }

/-! ### Message pump / approval gate (`startIdentityWorker`) -/

/-- Observable actions of the worker's consume callback. Logging and the
bot-id bookkeeping are outside this alphabet. -/
inductive WorkerAction where
  | onboarding
  | dispatch (p : PendingPayment)
  | enqueueOut (body : String)
  | notifyConfirmation (tag : String) (summary : String)
deriving DecidableEq, Repr

/-- `${x}` for an optional string (`undefined` prints as `"undefined"`). -/
def optDisplay : Option String → String
  | some s => s
  | none => "undefined"

/-- External state and oracle results for one worker callback run:
whether the sender is a known user, whether they have in-flight onboarding
state, the `retrieveAndClearConfirmation` result, and the outcomes of the
`makePayment` / `getBalance` calls should they happen. -/
structure WorkerEnv where
  isKnown : Bool
  hasOnboardingState : Bool
  pending : Option PendingPayment
  payResult : PaymentResult
  balance : BalanceResult
deriving Repr

/-- The consume callback of `startIdentityWorker` from `worker.ts`: empty
messages are dropped; unknown or mid-onboarding users are routed to
onboarding; a case-insensitive `yes` consumes the pending payment (none
pending is a logged no-op); anything else from a known user is only logged. -/
def workerHandleMessage (messageText : String) (env : WorkerEnv) : List WorkerAction :=
  let text := trimStr messageText
  if text = "" then []
  else if env.isKnown = false || env.hasOnboardingState then [.onboarding]
  else if lowerStr text = "yes" then
    match env.pending with
    | none => []
    | some p =>
      let result := env.payResult
      if result.success then
        let t0 := "Payment confirmed!"
        let t1 := if optTruthy result.receipt then
            t0 ++ " Your receipt is: " ++ result.receipt.getD ""
          else t0
        let t2 :=
          if env.balance.success then
            match env.balance.balance with
            | some b => t1 ++ s!" Your new balance is {b} sats."
            | none => t1
          else t1
        let summary := if optTruthy result.receipt then
            "Successful payment. Receipt: " ++ result.receipt.getD ""
          else "Successful payment."
        [.dispatch p, .enqueueOut t2, .notifyConfirmation "paid" summary]
      else
        [.dispatch p,
         .enqueueOut ("Payment failed: " ++ optDisplay result.error),
         .notifyConfirmation "rejected" (orFallback result.error "Payment failed")]
  else []

/-! ### Auxiliary observations used by the theorems -/

mutual
/-- Every string value occurring in a tree (for stating that a tree contains
no 64-character lowercase hex string anywhere). -/
def allStrings : JValue → List String
  | .str s => [s]
  | .arr xs => allStringsList xs
  | .obj fs => allStringsFields fs
  | _ => []

def allStringsList : JList → List String
  | .nil => []
  | .cons v t => allStrings v ++ allStringsList t

def allStringsFields : JFields → List String
  | .nil => []
  | .cons _ v t => allStrings v ++ allStringsFields t
end

/-- The value under key `k` of this object node is exactly the string `s`. -/
def keyHasStr (fs : JFields) (k s : String) : Bool :=
  match fs.lookup k with
  | some (.str c) => c = s
  | _ => false

mutual
/-- `s` occurs somewhere in the tree as the string value of one of the
recognized preimage keys (`preimage`, `paymentPreimage`, `preImage`). -/
def strUnderPreimageKey : JValue → String → Bool
  | .obj fs, s =>
    keyHasStr fs "preimage" s || keyHasStr fs "paymentPreimage" s ||
    keyHasStr fs "preImage" s || strUnderPreimageKeyFields fs s
  | .arr xs, s => strUnderPreimageKeyList xs s
  | _, _ => false

def strUnderPreimageKeyList : JList → String → Bool
  | .nil, _ => false
  | .cons v t, s => strUnderPreimageKey v s || strUnderPreimageKeyList t s

def strUnderPreimageKeyFields : JFields → String → Bool
  | .nil, _ => false
  | .cons _ v t, s => strUnderPreimageKey v s || strUnderPreimageKeyFields t s
end

/-- `x || fallback` is non-empty whenever the fallback is. -/
theorem orFallback_ne_empty (x : Option String) (y : String) (hy : y ≠ "") :
    orFallback x y ≠ "" := by
  unfold orFallback
  match x with
  | none => exact hy
  | some s =>
    by_cases hs : s = "" <;> simp [hs, hy]

/-- Appending the balance insight never empties a non-empty message. -/
theorem appendBalanceContext_ne_empty (message : String) (requestMsats : Option Int)
    (snapshot : Option (Option Int × Option Int)) (hm : message ≠ "") :
    appendBalanceContext message requestMsats snapshot ≠ "" := by
  unfold appendBalanceContext
  cases hbi : buildBalanceInsight (snapBalance snapshot) (snapPending snapshot) requestMsats with
  | none => exact hm
  | some insight =>
    intro h
    have h2 := congrArg String.data h
    rw [String.data_append, String.data_append] at h2
    rcases List.append_eq_nil.mp h2 with ⟨h3, _⟩
    rcases List.append_eq_nil.mp h3 with ⟨h4, _⟩
    apply hm
    cases message
    simpa using congrArg String.mk h4

/-! ### C4 -/

/-- The backend response `{status: "error", reason: "insufficient funds"}`. -/
def sampleErrorResponse : JValue :=
  .obj (.cons "status" (.str "error") (.cons "reason" (.str "insufficient funds") .nil))

/-- C4: on `{status: "error", reason: "insufficient funds"}` the error
extractor returns `"insufficient funds"` and the success extractor (as used by
`interpretNwcliPaymentResponse`) returns `false`. -/
theorem C4_error_response_extractors :
    extractErrorMessage sampleErrorResponse = some "insufficient funds" ∧
    findSuccessFlag sampleErrorResponse = some false ∧
    (interpretNwcliPaymentResponse sampleErrorResponse).success = false := by
  decide

/-! ### C5 -/

/-- The backend response `{result: {payResult: {}}}`. -/
def samplePayResultResponse : JValue :=
  .obj (.cons "result" (.obj (.cons "payResult" (.obj .nil) .nil)) .nil)

/-- C5: on `{result: {payResult: {}}}` no boolean/string flag is found
(`findSuccessFlag` is undefined), the `payResult`-presence fallback fires, and
`interpretNwcliPaymentResponse` yields success. -/
theorem C5_payresult_fallback :
    findSuccessFlag samplePayResultResponse = none ∧
    hasPayResult samplePayResultResponse = true ∧
    (interpretNwcliPaymentResponse samplePayResultResponse).success = true := by
  decide

/-! ### C8 -/

/-- C8: a known, not-onboarding user replying `yes` (case-insensitively, after
trimming) with nothing pending produces no dispatch, no outbound message and
no notification — the worker only logs. -/
theorem C8_yes_without_pending_noop (messageText : String) (env : WorkerEnv)
    (hKnown : env.isKnown = true) (hOnb : env.hasOnboardingState = false)
    (hYes : lowerStr (trimStr messageText) = "yes") (hPending : env.pending = none) :
    workerHandleMessage messageText env = [] := by
  have hne : (trimStr messageText = "") = False := by
    simp only [eq_iff_iff, iff_false]
    intro h0
    rw [h0] at hYes
    exact absurd hYes (by decide)
  unfold workerHandleMessage
  simp [hne, hKnown, hOnb, hYes, hPending]

/-- Witness for C8 at a concrete input. -/
theorem C8_witness :
    workerHandleMessage "  YES " { isKnown := true, hasOnboardingState := false,
                                   pending := none, payResult := { success := false },
                                   balance := { success := false } } = [] :=
  C8_yes_without_pending_noop _ _ rfl rfl (by decide) rfl

/-! ### C9 -/

/-- C9: `msatsToSats` is exactly floor division by 1000 (deterministically,
being a function), is idempotent after re-multiplication by 1000, and is not
directly idempotent (values below 1000 are lossy: 1500 ↦ 1 ↦ 0). -/
theorem C9_msats_floor_division :
    (∀ n : Int, msatsToSats (some n) = some (Int.fdiv n 1000)) ∧
    msatsToSats none = none ∧
    (∀ n : Int, msatsToSats ((msatsToSats (some n)).map (fun s => 1000 * s)) = msatsToSats (some n)) ∧
    ¬(∀ n : Int, msatsToSats (msatsToSats (some n)) = msatsToSats (some n)) := by
  refine ⟨fun n => rfl, rfl, fun n => ?_, fun h => absurd (h 1500) (by decide)⟩
  simp only [msatsToSats, Option.map]
  rw [Int.mul_fdiv_cancel_left _ (by norm_num)]

/-! ### C1 -/

/-- Oracles for the C1 scenario: user creation succeeds, sub-account
provisioning succeeds with a fixed response, NWC validation accepts. -/
def demoOnboardOracles : OnboardOracles :=
  { createUser := some "npub1demo",
    createSubAccount := fun _ => .ok { id := "sub-1", identifier := "wallet-1",
                                       subAccount := { id := "inner-1", label := "beacon-whatsapp-ce1" } },
    validateNwc := fun _ => true,
    encryptFn := fun s => s }

/-- C1 counterexample: from `awaiting_choice`, replying `"2"` with successful
provisioning does persist an `'api'` wallet, but the in-memory state is
*deleted* (onboarding completes), not set to `awaiting_ln_address` as the
claim states. -/
theorem C1_counterexample :
    (handleOnboarding "whatsapp" "alice" (some (.awaiting_choice "npub1demo")) "2" demoOnboardOracles).writes =
      [saveApiWallet "npub1demo" "wallet-1" "sub-1" "beacon-whatsapp-ce1"] ∧
    (handleOnboarding "whatsapp" "alice" (some (.awaiting_choice "npub1demo")) "2" demoOnboardOracles).state = none ∧
    (handleOnboarding "whatsapp" "alice" (some (.awaiting_choice "npub1demo")) "2" demoOnboardOracles).state ≠
      some (OnboardingStep.awaiting_ln_address "npub1demo") := by
  decide

/-- C1 amended: from `awaiting_choice` or `awaiting_nwc`, a reply parsing as
choice `"2"` (and not shaped like an NWC credential) with successful
sub-account provisioning persists a wallet with `wallet_type = 'api'` and the
provisioned identifiers, and *completes* onboarding: the in-memory entry is
deleted (no `awaiting_ln_address` step) and the upstream notifier fires. -/
theorem C1_amended (gatewayType gatewayUser npub messageText : String)
    (o : OnboardOracles) (sa : SubAccountResp) (state : Option OnboardingStep)
    (hstate : state = some (.awaiting_choice npub) ∨ state = some (.awaiting_nwc npub))
    (hnotNwc : looksLikeNwcString (trimStr messageText) = false)
    (hchoice : parseWalletChoice (trimStr messageText) = some .two)
    (hprov : o.createSubAccount (generateSubAccountLabel gatewayType gatewayUser npub) = .ok sa) :
    (handleOnboarding gatewayType gatewayUser state messageText o).writes =
      [DbWrite.upsertWallet { user_npub := npub, wallet_type := "api",
                              api_identifier := some sa.identifier,
                              api_subaccount_id := some sa.id,
                              api_label := some sa.subAccount.label }] ∧
    (handleOnboarding gatewayType gatewayUser state messageText o).state = none ∧
    (handleOnboarding gatewayType gatewayUser state messageText o).notifiedBrain = true := by
  rcases hstate with h | h <;> subst h <;>
    simp [handleOnboarding, hnotNwc, hchoice, handleGenerateWallet, hprov, saveApiWallet]

/-- Witness for C1's amended theorem at a concrete input (`awaiting_nwc`,
reply `" 2 "`). -/
theorem C1_amended_witness :
    (handleOnboarding "whatsapp" "alice" (some (.awaiting_nwc "npub1demo")) " 2 " demoOnboardOracles).writes =
      [DbWrite.upsertWallet { user_npub := "npub1demo", wallet_type := "api",
                              api_identifier := some "wallet-1",
                              api_subaccount_id := some "sub-1",
                              api_label := some "beacon-whatsapp-ce1" }] ∧
    (handleOnboarding "whatsapp" "alice" (some (.awaiting_nwc "npub1demo")) " 2 " demoOnboardOracles).state = none ∧
    (handleOnboarding "whatsapp" "alice" (some (.awaiting_nwc "npub1demo")) " 2 " demoOnboardOracles).notifiedBrain = true :=
  C1_amended "whatsapp" "alice" "npub1demo" " 2 " demoOnboardOracles
    { id := "sub-1", identifier := "wallet-1",
      subAccount := { id := "inner-1", label := "beacon-whatsapp-ce1" } }
    _ (Or.inr rfl) (by decide) (by decide) rfl

/-! ### C6 -/

/-- Trivial nwc oracles (all calls succeed with empty payloads). -/
def idleNwcOracles : NwcOracles :=
  { parse := .ok (), lnurlParams := .ok .null, lnurlInvoice := .ok .null,
    decodeAmount := .ok none, payInvoice := .ok .null }

/-- Trivial api oracles (all calls succeed with empty payloads). -/
def idleApiOracles : ApiOracles :=
  { refreshLedger := .ok (), fetchBalance := .ok .null, payLnAddress := .ok .null,
    payInvoice := .ok .null, decodeInvoiceAmount := none }

/-- Trivial balance oracles. -/
def idleBalanceOracles : BalanceOracles :=
  { parse := .ok (), nwcGetBalance := .ok 0, apiFetchBalance := .ok .null }

/-- Trivial invoice oracles. -/
def idleInvoiceOracles : InvoiceOracles :=
  { parse := .ok (), nwcMakeInvoice := fun _ => .ok none, apiCreateInvoice := fun _ => .ok .null }

/-- Trivial address oracles. -/
def idleLnAddrOracles : LnAddrOracles :=
  { urlLud16 := .ok none, dbLnAddress := none }

/-- C6: with no persisted `user_wallets` row, wallet resolution yields an
nwc wallet carrying the trimmed `SHARED_NWC_STRING` when that is configured
(non-blank); when it is not, resolution yields `none` and every wallet
operation returns `success = false` with the `"No wallet found"` error (and
no remote call), never raising. -/
theorem C6_wallet_fallback (npub sharedNwc : String) (decryptFn : String → String)
    (details : PendingPayment) (amountSats : Int) (nwcO : NwcOracles) (apiO : ApiOracles)
    (bo : BalanceOracles) (io : InvoiceOracles) (lo : LnAddrOracles) :
    (trimStr sharedNwc ≠ "" →
      loadWallet npub none sharedNwc decryptFn =
        some { type := .nwc, npub := npub, nwcUri := some (trimStr sharedNwc), lnAddress := none }) ∧
    (trimStr sharedNwc = "" →
      loadWallet npub none sharedNwc decryptFn = none ∧
      (makePayment details none sharedNwc decryptFn nwcO apiO).result =
        { success := false, error := some s!"No wallet found for user {details.npub}." } ∧
      (makePayment details none sharedNwc decryptFn nwcO apiO).calls = [] ∧
      getBalance npub none sharedNwc decryptFn bo =
        { success := false, error := some s!"No wallet found for user {npub}." } ∧
      createInvoice npub amountSats none sharedNwc decryptFn io =
        { success := false, error := some s!"No wallet found for user {npub}." } ∧
      getLNAddress npub none sharedNwc decryptFn lo =
        { success := false, error := some s!"No wallet found for user {npub}." }) := by
  constructor
  · intro h
    simp [loadWallet, h]
  · intro h
    refine ⟨?_, ?_, ?_, ?_, ?_, ?_⟩ <;>
      simp [loadWallet, makePayment, getBalance, createInvoice, getLNAddress, h]

/-- Witness for C6 at concrete inputs: a blank-padded shared credential on one
side, an unset one on the other. -/
theorem C6_witness :
    loadWallet "npub1w" none " nostrcred " (fun s => s) =
      some { type := .nwc, npub := "npub1w", nwcUri := some (trimStr " nostrcred "), lnAddress := none } ∧
    (makePayment { npub := "npub1w", type := "ln_invoice" } none "" (fun s => s)
        idleNwcOracles idleApiOracles).result =
      { success := false, error := some "No wallet found for user npub1w." } ∧
    getBalance "npub1w" none "" (fun s => s) idleBalanceOracles =
      { success := false, error := some "No wallet found for user npub1w." } ∧
    createInvoice "npub1w" 21 none "" (fun s => s) idleInvoiceOracles =
      { success := false, error := some "No wallet found for user npub1w." } ∧
    getLNAddress "npub1w" none "" (fun s => s) idleLnAddrOracles =
      { success := false, error := some "No wallet found for user npub1w." } := by
  have h1 := (C6_wallet_fallback "npub1w" " nostrcred " (fun s => s)
    { npub := "npub1w", type := "ln_invoice" } 21
    idleNwcOracles idleApiOracles idleBalanceOracles idleInvoiceOracles idleLnAddrOracles).1 (by decide)
  have h2 := (C6_wallet_fallback "npub1w" "" (fun s => s)
    { npub := "npub1w", type := "ln_invoice" } 21
    idleNwcOracles idleApiOracles idleBalanceOracles idleInvoiceOracles idleLnAddrOracles).2 rfl
  exact ⟨h1, h2.2.1, h2.2.2.2.1, h2.2.2.2.2.1, h2.2.2.2.2.2⟩

/-! ### C2 -/

/-- When the direct-key loop of `findPreimage` returns a string, that string
is the value of one of the three recognized keys of this node. -/
theorem preimageKeyHit_keyHasStr (fs : JFields) (s : String)
    (h : preimageKeyHit fs = some s) :
    keyHasStr fs "preimage" s = true ∨ keyHasStr fs "paymentPreimage" s = true ∨
    keyHasStr fs "preImage" s = true := by
  unfold preimageKeyHit at h
  unfold keyHasStr
  split at h
  · left
    cases h
    simp
  · split at h
    · right; left
      cases h
      simp
    · split at h
      · right; right
        cases h
        simp
      · cases h

mutual
/-- Any string `findPreimage` returns is either a 64-character hex string
(case-insensitive, the code's actual test) or sits under one of the three
recognized preimage keys somewhere in the tree. -/
theorem findPreimage_sound : ∀ (v : JValue) (s : String),
    findPreimage v = some s → isHex64 s = true ∨ strUnderPreimageKey v s = true
  | .null, s => by simp [findPreimage]
  | .bool b, s => by simp [findPreimage]
  | .num n, s => by simp [findPreimage]
  | .str t, s => by
    intro h
    left
    simp only [findPreimage] at h
    by_cases h0 : t = ""
    · rw [if_pos h0] at h; cases h
    · rw [if_neg h0] at h
      by_cases h1 : isHex64 t = true
      · rw [if_pos h1] at h; cases h; exact h1
      · rw [if_neg h1] at h; cases h
  | .arr xs, s => by
    intro h
    simp only [findPreimage] at h
    rcases findPreimageList_sound xs s h with h1 | h1
    · exact Or.inl h1
    · right; simp [strUnderPreimageKey, h1]
  | .obj fs, s => by
    intro h
    simp only [findPreimage] at h
    cases hk : preimageKeyHit fs with
    | some c =>
      rw [hk] at h
      cases h
      right
      rcases preimageKeyHit_keyHasStr fs s hk with h1 | h1 | h1 <;>
        simp [strUnderPreimageKey, h1]
    | none =>
      rw [hk] at h
      rcases findPreimageFields_sound fs s h with h1 | h1
      · exact Or.inl h1
      · right; simp [strUnderPreimageKey, h1]

/-- List version of `findPreimage_sound`. -/
theorem findPreimageList_sound : ∀ (xs : JList) (s : String),
    findPreimageList xs = some s → isHex64 s = true ∨ strUnderPreimageKeyList xs s = true
  | .nil, s => by simp [findPreimageList]
  | .cons v t, s => by
    intro h
    simp only [findPreimageList] at h
    split at h
    · next sv hv =>
        split at h
        · rcases findPreimageList_sound t s h with h1 | h1
          · exact Or.inl h1
          · right; simp [strUnderPreimageKeyList, h1]
        · cases h
          rcases findPreimage_sound v s hv with h1 | h1
          · exact Or.inl h1
          · right; simp [strUnderPreimageKeyList, h1]
    · rcases findPreimageList_sound t s h with h1 | h1
      · exact Or.inl h1
      · right; simp [strUnderPreimageKeyList, h1]

/-- Field version of `findPreimage_sound`. -/
theorem findPreimageFields_sound : ∀ (fs : JFields) (s : String),
    findPreimageFields fs = some s → isHex64 s = true ∨ strUnderPreimageKeyFields fs s = true
  | .nil, s => by simp [findPreimageFields]
  | .cons k v t, s => by
    intro h
    simp only [findPreimageFields] at h
    split at h
    · next sv hv =>
        split at h
        · rcases findPreimageFields_sound t s h with h1 | h1
          · exact Or.inl h1
          · right; simp [strUnderPreimageKeyFields, h1]
        · cases h
          rcases findPreimage_sound v s hv with h1 | h1
          · exact Or.inl h1
          · right; simp [strUnderPreimageKeyFields, h1]
    · rcases findPreimageFields_sound t s h with h1 | h1
      · exact Or.inl h1
      · right; simp [strUnderPreimageKeyFields, h1]
end

/-- C2 counterexample: on `{preimage: "oops"}` the tree contains no
64-character lowercase hexadecimal string at all, yet `findPreimage` does not
return `none` — it returns the non-hex string `"oops"` found under the
recognized key. -/
theorem C2_counterexample :
    findPreimage (JValue.obj (.cons "preimage" (.str "oops") .nil)) = some "oops" ∧
    (allStrings (JValue.obj (.cons "preimage" (.str "oops") .nil))).all
      (fun s => !isLowerHex64 s) = true ∧
    findPreimage (JValue.obj (.cons "preimage" (.str "oops") .nil)) ≠ none := by
  decide

/-- C2 amended: `findPreimage` is sound for the code's actual acceptance set:
every string it returns is either a 64-character case-insensitive hex string
(anywhere in the tree, not only under recognized keys) or the string value of
one of the recognized preimage keys (`preimage`, `paymentPreimage`,
`preImage`) at some depth — it can therefore return a non-hex string, and a
`none` result cannot be concluded from the absence of lowercase hex alone. -/
theorem C2_amended (v : JValue) (s : String) (h : findPreimage v = some s) :
    isHex64 s = true ∨ strUnderPreimageKey v s = true :=
  findPreimage_sound v s h

/-- Witness for C2's amended theorem at a concrete input. -/
theorem C2_amended_witness :
    isHex64 "oops" = true ∨
    strUnderPreimageKey (JValue.obj (.cons "preimage" (.str "oops") .nil)) "oops" = true :=
  C2_amended (JValue.obj (.cons "preimage" (.str "oops") .nil)) "oops" (by decide)

/-! ### C3 -/

/-- The LNURL helper only records discovery-protocol calls, never a
`payInvoice` call. -/
theorem getInvoice_calls_no_pay (a : String) (amt : Int) (o : NwcOracles) :
    WCall.nwcPayInvoice ∉ (getInvoiceFromLnAddress a amt o).2 := by
  simp only [getInvoiceFromLnAddress]
  repeat' split
  all_goals simp

/-- When the decoded amount string differs from `String(amountSats * 1000)`,
`getInvoiceFromLnAddress` raises (on every path). -/
theorem getInvoice_mismatch_raises (a : String) (amt : Int) (o : NwcOracles)
    (av : Option String) (hdec : o.decodeAmount = .ok av)
    (hmm : strOfOptAmt av ≠ toString (amt * 1000)) :
    (getInvoiceFromLnAddress a amt o).1.isOk = false := by
  simp only [getInvoiceFromLnAddress]
  repeat' split
  all_goals try rfl
  all_goals
    rename_i hdec2 hne
  all_goals
    rw [hdec] at hdec2
  all_goals
    injection hdec2 with h1
  all_goals
    subst h1
  all_goals
    exact absurd hmm hne

/-- Under the mismatch hypotheses, the nwc try block raises before any
`payInvoice` call is recorded. -/
theorem nwcTryBody_no_pay_on_mismatch (details : PendingPayment) (nwcO : NwcOracles)
    (av : Option String)
    (haddr : details.type = "ln_address")
    (hlnaddr : optTruthy details.lnAddress = true)
    (hamt : numTruthy details.amount = true)
    (hdec : nwcO.decodeAmount = .ok av)
    (hmm : strOfOptAmt av ≠ toString (details.amount.getD 0 * 1000)) :
    WCall.nwcPayInvoice ∉ (nwcTryBody details nwcO).2 := by
  unfold nwcTryBody
  cases nwcO.parse with
  | error e => simp
  | ok u =>
    simp only [haddr, hlnaddr, hamt, if_true, and_self, not_true_eq_false, if_false]
    have hfail := getInvoice_mismatch_raises (details.lnAddress.getD "")
      (details.amount.getD 0) nwcO av hdec hmm
    have hnop := getInvoice_calls_no_pay (details.lnAddress.getD "")
      (details.amount.getD 0) nwcO
    rcases hgi : getInvoiceFromLnAddress (details.lnAddress.getD "") (details.amount.getD 0) nwcO
      with ⟨res, cs⟩
    rw [hgi] at hfail hnop
    cases res with
    | error e => simpa using hnop
    | ok inv => simp [Except.isOk, Except.toBool] at hfail

/-- C3: on the protocol-wallet path of a Lightning-address payment, if the
fetched invoice's decoded amount differs from the requested amount times
1000, `getInvoiceFromLnAddress` raises its hard verification failure and
`makePayment` issues no `payInvoice` call in that attempt. -/
theorem C3_mismatch_blocks_payment
    (details : PendingPayment) (row : Option WalletRow) (sharedNwc : String)
    (decryptFn : String → String) (nwcO : NwcOracles) (apiO : ApiOracles)
    (w : WalletDetails) (av : Option String)
    (hw : loadWallet details.npub row sharedNwc decryptFn = some w)
    (hty : w.type = .nwc)
    (hcred : optTruthy w.nwcUri = true)
    (haddr : details.type = "ln_address")
    (hlnaddr : optTruthy details.lnAddress = true)
    (hamt : numTruthy details.amount = true)
    (hdec : nwcO.decodeAmount = .ok av)
    (hmm : strOfOptAmt av ≠ toString (details.amount.getD 0 * 1000)) :
    (getInvoiceFromLnAddress (details.lnAddress.getD "") (details.amount.getD 0) nwcO).1.isOk = false ∧
    WCall.nwcPayInvoice ∉ (makePayment details row sharedNwc decryptFn nwcO apiO).calls := by
  refine ⟨getInvoice_mismatch_raises _ _ _ av hdec hmm, ?_⟩
  have hnp := nwcTryBody_no_pay_on_mismatch details nwcO av haddr hlnaddr hamt hdec hmm
  unfold makePayment
  rw [hw]
  rcases w with ⟨ty, np, uri, lna, aid, said, albl⟩
  cases hty
  simp only [hcred]
  rcases hnt : nwcTryBody details nwcO with ⟨res, cs⟩
  rw [hnt] at hnp
  cases res with
  | ok r => simpa using hnp
  | error e => simpa using hnp

/-- Oracles exhibiting an invoice-amount mismatch: the callback returns an
invoice whose decoded amount is `999` millisats against a requested 21 sats. -/
def mismatchNwcOracles : NwcOracles :=
  { parse := .ok (),
    lnurlParams := .ok (.obj (.cons "tag" (.str "payRequest")
      (.cons "callback" (.str "https://pay.example/cb") .nil))),
    lnurlInvoice := .ok (.obj (.cons "pr" (.str "lnbc210n1rest") .nil)),
    decodeAmount := .ok (some "999"),
    payInvoice := .ok .null }

/-- Witness for C3 at a concrete input (shared-credential nwc wallet, address
payment of 21 sats, invoice decoding to 999 msats). -/
theorem C3_witness :
    (getInvoiceFromLnAddress "alice@pay.example" 21 mismatchNwcOracles).1.isOk = false ∧
    WCall.nwcPayInvoice ∉
      (makePayment { npub := "npub1w", type := "ln_address", lnAddress := some "alice@pay.example",
                     amount := some 21 }
        none "sharedcred" (fun s => s) mismatchNwcOracles idleApiOracles).calls :=
  C3_mismatch_blocks_payment
    { npub := "npub1w", type := "ln_address", lnAddress := some "alice@pay.example", amount := some 21 }
    none "sharedcred" (fun s => s) mismatchNwcOracles idleApiOracles
    { type := .nwc, npub := "npub1w", nwcUri := some "sharedcred", lnAddress := none }
    (some "999") (by decide) rfl rfl rfl rfl rfl rfl (by decide)

/-! ### C7 -/

/-- C7: on the HTTP-wallet path, for any outcome of the pre-payment ledger
refresh and balance-snapshot fetch — including failures — the payment backend
call is still made, and the payment outcome's success is exactly the
interpretation of the payment response (pre-payment failures are never
surfaced as the outcome). -/
theorem C7_prepayment_best_effort
    (details : PendingPayment) (row : Option WalletRow) (sharedNwc : String)
    (decryptFn : String → String) (nwcO : NwcOracles) (apiO : ApiOracles)
    (w : WalletDetails)
    (hw : loadWallet details.npub row sharedNwc decryptFn = some w)
    (hty : w.type = .api)
    (hid : optTruthy w.apiIdentifier = true)
    (hvalid : (details.type = "ln_address" ∧ optTruthy details.lnAddress = true ∧
               numTruthy details.amount = true) ∨
              (details.type ≠ "ln_address" ∧ optTruthy details.lnInvoice = true)) :
    ((if details.type = "ln_address" then WCall.apiPayLnAddress else WCall.apiPayInvoice)
        ∈ (makePayment details row sharedNwc decryptFn nwcO apiO).calls) ∧
    ((makePayment details row sharedNwc decryptFn nwcO apiO).result.success =
      match (if details.type = "ln_address" then apiO.payLnAddress else apiO.payInvoice) with
      | .ok r => (interpretNwcliPaymentResponse r).success
      | .error _ => false) := by
  rcases w with ⟨ty, np, uri, lna, aid, said, albl⟩
  cases hty
  rcases hvalid with ⟨haddr, hlna, hamt⟩ | ⟨haddr, hinv⟩
  · cases hr : apiO.refreshLedger with
    | ok u =>
      cases hp : apiO.payLnAddress with
      | error e => simp [makePayment, hw, hid, haddr, hlna, hamt, apiTryBody, hp, hr]
      | ok r =>
        by_cases hs : (interpretNwcliPaymentResponse r).success = true <;>
          simp [makePayment, hw, hid, haddr, hlna, hamt, apiTryBody, hp, hr, hs]
    | error e0 =>
      cases hp : apiO.payLnAddress with
      | error e => simp [makePayment, hw, hid, haddr, hlna, hamt, apiTryBody, hp, hr]
      | ok r =>
        by_cases hs : (interpretNwcliPaymentResponse r).success = true <;>
          simp [makePayment, hw, hid, haddr, hlna, hamt, apiTryBody, hp, hr, hs]
  · cases hr : apiO.refreshLedger with
    | ok u =>
      cases hp : apiO.payInvoice with
      | error e => simp [makePayment, hw, hid, haddr, hinv, apiTryBody, hp, hr]
      | ok r =>
        by_cases hs : (interpretNwcliPaymentResponse r).success = true <;>
          simp [makePayment, hw, hid, haddr, hinv, apiTryBody, hp, hr, hs]
    | error e0 =>
      cases hp : apiO.payInvoice with
      | error e => simp [makePayment, hw, hid, haddr, hinv, apiTryBody, hp, hr]
      | ok r =>
        by_cases hs : (interpretNwcliPaymentResponse r).success = true <;>
          simp [makePayment, hw, hid, haddr, hinv, apiTryBody, hp, hr, hs]

/-- A persisted api-wallet row for the C7 witness. -/
def c7Row : WalletRow :=
  { wallet_type := some "api", encrypted_nwc_string := none, ln_address := none,
    api_identifier := some "w1", api_subaccount_id := none, api_label := none }

/-- Api oracles whose pre-payment refresh and balance fetch both throw, while
the payment itself succeeds (`{status: "paid"}`). -/
def c7ApiOracles : ApiOracles :=
  { refreshLedger := .error (.err "refresh down" none),
    fetchBalance := .error (.err "balance down" none),
    payLnAddress := .ok .null,
    payInvoice := .ok (.obj (.cons "status" (.str "paid") .nil)),
    decodeInvoiceAmount := none }

/-- The C7 witness payment (an invoice payment). -/
def c7Details : PendingPayment :=
  { npub := "npub1w", type := "ln_invoice", lnInvoice := some "lnbc1invoice" }

/-- Witness for C7: with both pre-payment calls failing, the payment call is
still made and succeeds. -/
theorem C7_witness :
    WCall.apiPayInvoice ∈
      (makePayment c7Details (some c7Row) "" (fun s => s) idleNwcOracles c7ApiOracles).calls ∧
    (makePayment c7Details (some c7Row) "" (fun s => s) idleNwcOracles c7ApiOracles).result.success = true := by
  have h := C7_prepayment_best_effort c7Details (some c7Row) "" (fun s => s)
    idleNwcOracles c7ApiOracles
    { type := .api, npub := "npub1w", lnAddress := none, apiIdentifier := some "w1",
      apiSubAccountId := none, apiLabel := none }
    (by decide) rfl (by decide) (Or.inr ⟨by decide, by decide⟩)
  constructor
  · simpa using h.1
  · rw [h.2]
    decide

/-! ### C10 -/

/-- C10: whenever a `makePayment` run ends in a catch branch (a raised remote
call), the returned outcome has `success = false` and a non-empty error
string; the exception is never propagated (the function is total by
construction). -/
theorem C10_exceptions_converted
    (details : PendingPayment) (row : Option WalletRow) (sharedNwc : String)
    (decryptFn : String → String) (nwcO : NwcOracles) (apiO : ApiOracles)
    (hc : (makePayment details row sharedNwc decryptFn nwcO apiO).caught = true) :
    (makePayment details row sharedNwc decryptFn nwcO apiO).result.success = false ∧
    ∃ msg, (makePayment details row sharedNwc decryptFn nwcO apiO).result.error = some msg ∧
      msg ≠ "" := by
  unfold makePayment at hc ⊢
  rcases hlw : loadWallet details.npub row sharedNwc decryptFn with _ | w
  · simp only [hlw] at hc
    simp at hc
  · simp only [hlw] at hc ⊢
    rcases w with ⟨ty, np, uri, lna, aid, said, albl⟩
    cases ty
    case nwc =>
      dsimp only at hc ⊢
      by_cases hcr : optTruthy uri = false
      · rw [if_pos hcr] at hc
        simp at hc
      · rw [if_neg hcr] at hc ⊢
        split at hc
        · simp at hc
        · rename_i heq
          simp only [heq]
          refine ⟨?_, _, rfl, orFallback_ne_empty _ _ (by decide)⟩
          first
          | rfl
          | trivial
    case api =>
      dsimp only at hc ⊢
      by_cases hai : optTruthy aid = false
      · rw [if_pos hai] at hc
        simp at hc
      · rw [if_neg hai] at hc ⊢
        split at hc
        · simp at hc
        · rename_i heq
          simp only [heq]
          refine ⟨?_, _, rfl, appendBalanceContext_ne_empty _ _ _ (orFallback_ne_empty _ _ (by decide))⟩
          first
          | rfl
          | trivial

/-- Nwc oracles whose credential parse throws. -/
def throwingNwcOracles : NwcOracles :=
  { parse := .error (.err "relay unreachable" none),
    lnurlParams := .ok .null, lnurlInvoice := .ok .null,
    decodeAmount := .ok none, payInvoice := .ok .null }

/-- Witness for C10: a raising nwc transport yields a caught run with
`success = false` and a non-empty error. -/
theorem C10_witness :
    (makePayment c7Details none "sharedcred" (fun s => s) throwingNwcOracles idleApiOracles).caught = true ∧
    ((makePayment c7Details none "sharedcred" (fun s => s) throwingNwcOracles idleApiOracles).result.success = false ∧
     ∃ msg, (makePayment c7Details none "sharedcred" (fun s => s) throwingNwcOracles idleApiOracles).result.error = some msg ∧
       msg ≠ "") :=
  ⟨by decide,
   C10_exceptions_converted c7Details none "sharedcred" (fun s => s)
     throwingNwcOracles idleApiOracles (by decide)⟩

end BeaconId
